import Mathlib

/-!
# Verification of the zktraffic capture/stats pipeline

A shallow embedding of `zktraffic/stats/loaders.py` (`QueueStatsLoader`) and
`zktraffic/network/sniffer.py` (`Sniffer`), together with theorems settling the
behavioural claims about the bounded queueing pipeline, auth correlation,
capability dispatch, periodic accumulation, and per-frame error containment.

Machine-level details that the claims do not touch (actual threads, the
monotonic clock, logging side effects) are modelled as explicit state and
traces: a consumer-loop iteration is a pure function from the loader state and
the current time to the next state plus a trace of which handler/accumulator
calls were made.
-/

set_option maxHeartbeats 1000000

namespace ZkTraffic

/-! ## The bounded deque (`zktraffic.base.deque.Deque`) -/

/-- Modelled from the spec: `zktraffic.base.deque.Deque` is not among the given
source files.  Design note §9 describes it as a length-capped container — a
`collections.deque` with `maxlen` — that "already silently evicts on overflow
at its own layer".  `items` lists the elements from the left end (where
`appendleft` inserts) to the right end (where `pop` removes); an insertion that
would exceed `maxlen` silently discards the element at the opposite (right)
end, i.e. the oldest one. -/
structure Deque (α : Type) where
  items : List α
  maxlen : Nat
deriving DecidableEq, Repr

namespace Deque

def empty (α : Type) (maxlen : Nat) : Deque α := ⟨[], maxlen⟩

/-- Python `len(queue)`. -/
def len (q : Deque α) : Nat := q.items.length

/-- `Deque.maxlength()`: the configured capacity. -/
def maxlength (q : Deque α) : Nat := q.maxlen

/-- `deque.appendleft(x)` on a `maxlen`-capped deque: inserts at the left end;
when the deque is already at capacity the rightmost (oldest) element is
silently discarded. -/
def appendleft (q : Deque α) (x : α) : Deque α :=
  ⟨(x :: q.items).take q.maxlen, q.maxlen⟩

/-- `deque.pop()`: removes and returns the rightmost (oldest) element; `none`
models the `IndexError` raised on an empty deque. -/
def pop (q : Deque α) : Option (α × Deque α) :=
  match q.items.getLast? with
  | none => none
  | some x => some (x, ⟨q.items.dropLast, q.maxlen⟩)

theorem pop_length_lt {q : Deque α} {x : α} {q' : Deque α}
    (h : q.pop = some (x, q')) : q'.items.length < q.items.length := by
  unfold pop at h
  cases hg : q.items.getLast? with
  | none => rw [hg] at h; simp at h
  | some y =>
    rw [hg] at h
    have hne : q.items ≠ [] := by
      intro he; rw [he] at hg; simp at hg
    have hpos : 0 < q.items.length := List.length_pos.mpr hne
    simp only [Option.some.injEq, Prod.mk.injEq] at h
    obtain ⟨-, h2⟩ := h
    rw [← h2]
    simp [List.length_dropLast]
    omega

theorem pop_eq_some {q : Deque α} {x : α} {q' : Deque α}
    (h : q.pop = some (x, q')) :
    q.items = q'.items ++ [x] ∧ q'.maxlen = q.maxlen := by
  unfold pop at h
  cases hg : q.items.getLast? with
  | none => rw [hg] at h; simp at h
  | some y =>
    rw [hg] at h
    have hne : q.items ≠ [] := by
      intro he; rw [he] at hg; simp at hg
    simp only [Option.some.injEq, Prod.mk.injEq] at h
    obtain ⟨h1, h2⟩ := h
    have hgl : q.items.getLast hne = y := by
      rw [List.getLast?_eq_getLast _ hne] at hg
      exact Option.some_inj.mp hg
    constructor
    · rw [← h2, ← h1, ← hgl]
      exact (List.dropLast_append_getLast hne).symm
    · rw [← h2]

/-- Pop until `IndexError`, collecting the popped elements in pop order. -/
def popAll (q : Deque α) : List α :=
  match hq : q.pop with
  | none => []
  | some (x, q') => x :: popAll q'
termination_by q.items.length
decreasing_by exact pop_length_lt hq

theorem popAll_eq_reverse (q : Deque α) : q.popAll = q.items.reverse := by
  generalize hn : q.items.length = n
  induction n using Nat.strong_induction_on generalizing q with
  | _ n ih =>
    rw [popAll]
    split
    · rename_i hq
      unfold pop at hq
      cases hg : q.items.getLast? with
      | none =>
        have : q.items = [] := by
          cases h : q.items with
          | nil => rfl
          | cons a l => rw [h] at hg; simp [List.getLast?_concat] at hg
        rw [this]; rfl
      | some y => rw [hg] at hq; simp at hq
    · rename_i x q' hq
      obtain ⟨hitems, hmax⟩ := pop_eq_some hq
      have hlt : q'.items.length < n := by
        rw [← hn]; exact pop_length_lt hq
      rw [ih _ hlt q' rfl, hitems]
      simp

end Deque

/-! ## `QueueStatsLoader.add_to_queue` -/

/-- `QueueStatsLoader.add_to_queue`: when the queue length already exceeds
`maxlength()` the item is dropped with a logged warning; otherwise it is
`appendleft`-ed.  (With the length-capped deque the drop branch is
unreachable, as the source marks with `pragma: no cover`.) -/
def add_to_queue (queue : Deque α) (item : α) : Deque α :=
  if queue.len > queue.maxlength then queue else queue.appendleft item

theorem take_cons_take (N : Nat) (x : α) (l : List α) :
    ((x :: l.take N).take N) = (x :: l).take N := by
  cases N with
  | zero => simp
  | succ n =>
    rw [List.take_succ_cons, List.take_succ_cons, List.take_take,
        Nat.min_eq_left (Nat.le_succ n)]

theorem take_append_take (N : Nat) (a b : List α) :
    ((a ++ b.take N).take N) = (a ++ b).take N := by
  rw [List.take_append_eq_append_take, List.take_append_eq_append_take,
      List.take_take, Nat.min_eq_left (Nat.sub_le N a.length)]

theorem add_to_queue_of_le {q : Deque α} (h : q.len ≤ q.maxlen) (x : α) :
    add_to_queue q x = q.appendleft x := by
  unfold add_to_queue
  rw [if_neg]
  simp only [Deque.maxlength, not_lt]
  exact h

theorem add_to_queue_len_le {q : Deque α} (h : q.len ≤ q.maxlen) (x : α) :
    (add_to_queue q x).len ≤ (add_to_queue q x).maxlen := by
  rw [add_to_queue_of_le h]
  simp [Deque.appendleft, Deque.len]

theorem add_to_queue_maxlen {q : Deque α} (h : q.len ≤ q.maxlen) (x : α) :
    (add_to_queue q x).maxlen = q.maxlen := by
  rw [add_to_queue_of_le h]
  rfl

/-- Pushing a list of items through `add_to_queue`, oldest first. -/
theorem foldl_add_to_queue_items (N : Nat) (xs : List α) :
    ∀ I : List α, I.length ≤ N →
      (xs.foldl add_to_queue ⟨I, N⟩).items = (xs.reverse ++ I).take N := by
  induction xs with
  | nil =>
    intro I hI
    simp [List.take_of_length_le hI]
  | cons x xs ih =>
    intro I hI
    have hq : (⟨I, N⟩ : Deque α).len ≤ (⟨I, N⟩ : Deque α).maxlen := hI
    have hstep : add_to_queue (⟨I, N⟩ : Deque α) x = ⟨(x :: I).take N, N⟩ := by
      rw [add_to_queue_of_le hq]
      rfl
    rw [List.foldl_cons, hstep,
        ih ((x :: I).take N) (by simp), take_append_take]
    simp

theorem foldl_add_to_queue_maxlen (N : Nat) (xs : List α) (I : List α)
    (hI : I.length ≤ N) :
    (xs.foldl add_to_queue ⟨I, N⟩).maxlen = N := by
  induction xs generalizing I with
  | nil => rfl
  | cons x xs ih =>
    have hq : (⟨I, N⟩ : Deque α).len ≤ (⟨I, N⟩ : Deque α).maxlen := hI
    have hstep : add_to_queue (⟨I, N⟩ : Deque α) x = ⟨(x :: I).take N, N⟩ := by
      rw [add_to_queue_of_le hq]
      rfl
    rw [List.foldl_cons, hstep]
    exact ih _ (by simp)

/-- C2, counterexample: with capacity 1, pushing 10 then 20 through
`add_to_queue` leaves the queue holding the newest item 20, and 10 — the first
of the "first N items" the claim says remain poppable — is gone: the bounded
deque evicted the oldest item to admit the new one, so the (N+1)-th item is
returned by the next pop, contradicting the claim. -/
theorem add_to_queue_drops_oldest_cex :
    (([10, 20] : List Nat).foldl add_to_queue (Deque.empty Nat 1)).popAll = [20]
    ∧ (10 : Nat) ∉ (([10, 20] : List Nat).foldl add_to_queue (Deque.empty Nat 1)).popAll := by
  rw [Deque.popAll_eq_reverse]
  exact ⟨by decide, by decide⟩

/-- C2, amended: pushing `N + 1` items through the StatsLoader enqueue step
into an empty queue of capacity `N` leaves the queue at length `N`, but the
*oldest* item is the one evicted: the subsequent pops return items
`2 .. N + 1` in push (FIFO) order, and the newest item is retained. -/
theorem add_to_queue_overflow (N : Nat) (xs : List α) (h : xs.length = N + 1) :
    (xs.foldl add_to_queue (Deque.empty α N)).len = N
    ∧ (xs.foldl add_to_queue (Deque.empty α N)).popAll = xs.drop 1 := by
  unfold Deque.empty
  have hitems := foldl_add_to_queue_items N xs [] (by simp)
  simp only [List.append_nil] at hitems
  constructor
  · rw [Deque.len, hitems]
    simp [h]
  · rw [Deque.popAll_eq_reverse, hitems]
    cases xs with
    | nil => simp at h
    | cons x t =>
      have ht : t.length = N := by simpa using h
      simp only [List.reverse_cons]
      rw [← ht, ← List.length_reverse t, List.take_left]
      simp

/-- Witness for `add_to_queue_overflow` at `N = 2`, items `[10, 20, 30]`. -/
theorem add_to_queue_overflow_witness :
    (([10, 20, 30] : List Nat).length = 2 + 1)
    ∧ ((([10, 20, 30] : List Nat).foldl add_to_queue (Deque.empty Nat 2)).len = 2
       ∧ (([10, 20, 30] : List Nat).foldl add_to_queue (Deque.empty Nat 2)).popAll
           = ([10, 20, 30] : List Nat).drop 1) :=
  ⟨by decide, add_to_queue_overflow 2 [10, 20, 30] (by decide)⟩

/-! ## Timer (`zktraffic.stats.timer.Timer`) -/

/-- Modelled from the spec: `zktraffic.stats.timer.Timer` is not among the
given source files.  §4.4 specifies a gate over a monotonic clock: `reset()`
records the current time as the reference point and `after(duration)` is true
exactly when at least `duration` has elapsed since the last reset.  The clock
is made explicit: operations take the current time `now`. -/
structure Timer where
  last : Nat
deriving DecidableEq, Repr

def Timer.reset (_t : Timer) (now : Nat) : Timer := ⟨now⟩

def Timer.after (t : Timer) (now duration : Nat) : Bool := t.last + duration ≤ now

/-! ## Messages, handlers and accumulators -/

/-- A Request message, with the fields `handle_request` reads and writes:
`client`, `is_auth`, `credential` and the mutable `auth` annotation. -/
structure Request where
  client : String
  is_auth : Bool
  credential : String
  auth : String
deriving DecidableEq, Repr

/-- A handler held in one of the loader's per-kind handler sets (in the source,
a bound `update_*_stats` method).  `hid` is the identity under which Python's
set deduplicates equal bound methods; `fails` tells, per item, whether invoking
the handler on it raises. -/
structure Handler (α : Type) where
  hid : Nat
  fails : α → Bool

/-- A duck-typed accumulator: each `update_*_stats` capability is either absent
(`none`) or present with its per-item raising behaviour; `accumulate_stats`
records whether the accumulator exposes that method at all. -/
structure Accumulator (α : Type) where
  aid : Nat
  update_request_stats : Option (α → Bool)
  update_reply_stats : Option (α → Bool)
  update_event_stats : Option (α → Bool)
  accumulate_stats : Bool

/-! ## Dictionaries (insertion-ordered, as in Python) -/

def dictGet (tbl : List (String × String)) (k : String) : Option String :=
  match tbl with
  | [] => none
  | (k1, v) :: rest => if k1 = k then some v else dictGet rest k

/-- `d[k] = v` on a dict: overwrites in place, or appends a new entry. -/
def dictSet (tbl : List (String × String)) (k v : String) : List (String × String) :=
  match tbl with
  | [] => [(k, v)]
  | (k1, v1) :: rest =>
    if k1 = k then (k1, v) :: rest else (k1, v1) :: dictSet rest k v

/-- `defaultdict.__getitem__` with default factory `lambda: intern("noauth")`:
on a hit the table is unchanged; on a miss the default is *inserted* and
returned. -/
def defaultGet (tbl : List (String × String)) (k : String) :
    String × List (String × String) :=
  match dictGet tbl k with
  | some v => (v, tbl)
  | none => ("noauth", tbl ++ [(k, "noauth")])

theorem dictGet_dictSet_self (tbl : List (String × String)) (k v : String) :
    dictGet (dictSet tbl k v) k = some v := by
  induction tbl with
  | nil => simp [dictGet, dictSet]
  | cons p rest ih =>
    obtain ⟨k1, v1⟩ := p
    by_cases hk : k1 = k
    · simp [dictGet, dictSet, hk]
    · simp [dictGet, dictSet, hk, ih]

theorem dictGet_append_of_none {tbl : List (String × String)} {k : String}
    (h : dictGet tbl k = none) (v : String) :
    dictGet (tbl ++ [(k, v)]) k = some v := by
  induction tbl with
  | nil => simp [dictGet]
  | cons p rest ih =>
    obtain ⟨k1, v1⟩ := p
    by_cases hk : k1 = k
    · simp [dictGet, hk] at h
    · simp only [dictGet, hk, if_false, List.cons_append] at *
      exact ih h

/-! ## The loader state (`QueueStatsLoader`) -/

/-- The mutable state of a `QueueStatsLoader`: the accumulator dict, the three
bounded queues, the three per-kind handler sets (modelled as lists in set
iteration order), the auth table and the timer. -/
structure LoaderState (α : Type) where
  accumulators : List (String × Accumulator α)
  requests : Deque α
  replies : Deque α
  events : Deque α
  request_handlers : List (Handler α)
  reply_handlers : List (Handler α)
  event_handlers : List (Handler α)
  auth_by_client : List (String × String)
  timer : Timer

/-- `QueueStatsLoader.handle_request`: an auth request stores its credential in
the auth table under its client; a non-auth request has its `auth` field
stamped from the table's (auto-inserting) default lookup.  Either way the
(possibly stamped) request then goes through `add_to_queue`. -/
def handle_request (st : LoaderState Request) (request : Request) :
    LoaderState Request :=
  if request.is_auth then
    { st with
      auth_by_client := dictSet st.auth_by_client request.client request.credential,
      requests := add_to_queue st.requests request }
  else
    let p := defaultGet st.auth_by_client request.client
    { st with
      auth_by_client := p.2,
      requests := add_to_queue st.requests { request with auth := p.1 } }

/-- `QueueStatsLoader.handle_reply`. -/
def handle_reply (st : LoaderState α) (reply : α) : LoaderState α :=
  { st with replies := add_to_queue st.replies reply }

/-- `QueueStatsLoader.handle_event`. -/
def handle_event (st : LoaderState α) (event : α) : LoaderState α :=
  { st with events := add_to_queue st.events event }

theorem add_to_queue_head {q : Deque α} (hq : q.len ≤ q.maxlen)
    (hm : 1 ≤ q.maxlen) (x : α) :
    (add_to_queue q x).items.head? = some x := by
  rw [add_to_queue_of_le hq]
  unfold Deque.appendleft
  obtain ⟨m, hm'⟩ : ∃ m, q.maxlen = m + 1 := ⟨q.maxlen - 1, by omega⟩
  simp [hm', List.take_succ_cons]

/-- Unfolding of `handle_request` on an auth request. -/
theorem handle_request_is_auth (st : LoaderState Request) (r : Request)
    (h : r.is_auth = true) :
    handle_request st r
      = { st with
          auth_by_client := dictSet st.auth_by_client r.client r.credential,
          requests := add_to_queue st.requests r } := by
  unfold handle_request
  rw [if_pos h]

/-- Unfolding of `handle_request` on a non-auth request. -/
theorem handle_request_not_auth (st : LoaderState Request) (r : Request)
    (h : r.is_auth = false) :
    handle_request st r
      = { st with
          auth_by_client := (defaultGet st.auth_by_client r.client).2,
          requests := add_to_queue st.requests
            { r with auth := (defaultGet st.auth_by_client r.client).1 } } := by
  unfold handle_request
  rw [if_neg (by rw [h]; exact Bool.false_ne_true)]

/-- C3: auth correlation in `handle_request`.  (i) An auth request updates the
auth table entry for its client to its credential and is enqueued unchanged;
(ii) a later non-auth request from the same client is stamped, before being
enqueued, with the credential most recently stored for that client (here: by
the preceding auth request, whatever credential the table held before);
(iii) a non-auth request from a client with no table entry is stamped
`"noauth"`. -/
theorem handle_request_auth_correlation (st : LoaderState Request)
    (r1 r2 r3 : Request)
    (hq : st.requests.len ≤ st.requests.maxlen) (hm : 1 ≤ st.requests.maxlen)
    (h1 : r1.is_auth = true)
    (h2 : r2.is_auth = false) (hc : r2.client = r1.client)
    (h3 : r3.is_auth = false)
    (hmiss : dictGet st.auth_by_client r3.client = none) :
    (dictGet (handle_request st r1).auth_by_client r1.client = some r1.credential
      ∧ (handle_request st r1).requests.items.head? = some r1)
    ∧ (handle_request (handle_request st r1) r2).requests.items.head?
        = some { r2 with auth := r1.credential }
    ∧ (handle_request st r3).requests.items.head? = some { r3 with auth := "noauth" } := by
  have hst1 := handle_request_is_auth st r1 h1
  refine ⟨⟨?_, ?_⟩, ?_, ?_⟩
  · rw [hst1]
    exact dictGet_dictSet_self st.auth_by_client r1.client r1.credential
  · rw [hst1]
    exact add_to_queue_head hq hm r1
  · have hq1 : (handle_request st r1).requests.len ≤ (handle_request st r1).requests.maxlen := by
      rw [hst1]
      exact add_to_queue_len_le hq r1
    have hm1 : 1 ≤ (handle_request st r1).requests.maxlen := by
      rw [hst1]
      simpa [add_to_queue_maxlen hq] using hm
    have hget : defaultGet (handle_request st r1).auth_by_client r2.client
        = (r1.credential, (handle_request st r1).auth_by_client) := by
      unfold defaultGet
      rw [hst1, hc]
      simp only [dictGet_dictSet_self]
    rw [handle_request_not_auth (handle_request st r1) r2 h2, hget]
    exact add_to_queue_head hq1 hm1 _
  · have hget : defaultGet st.auth_by_client r3.client
        = ("noauth", st.auth_by_client ++ [(r3.client, "noauth")]) := by
      unfold defaultGet
      rw [hmiss]
    rw [handle_request_not_auth st r3 h3, hget]
    exact add_to_queue_head hq hm _

/-- A fresh loader with empty queues of capacity `cap`, no accumulators, no
handlers, an empty auth table and a just-reset timer. -/
def emptyLoader (α : Type) (cap : Nat) : LoaderState α :=
  ⟨[], ⟨[], cap⟩, ⟨[], cap⟩, ⟨[], cap⟩, [], [], [], [], ⟨0⟩⟩

/-- Witness for `handle_request_auth_correlation` on a concrete state. -/
theorem handle_request_auth_correlation_witness :
    (dictGet
        (handle_request (emptyLoader Request 4) ⟨"c1", true, "digest:abc", "noauth"⟩).auth_by_client
        "c1" = some "digest:abc"
      ∧ (handle_request (emptyLoader Request 4)
          ⟨"c1", true, "digest:abc", "noauth"⟩).requests.items.head?
          = some ⟨"c1", true, "digest:abc", "noauth"⟩)
    ∧ (handle_request
        (handle_request (emptyLoader Request 4) ⟨"c1", true, "digest:abc", "noauth"⟩)
        ⟨"c1", false, "", "unset"⟩).requests.items.head?
        = some ⟨"c1", false, "", "digest:abc"⟩
    ∧ (handle_request (emptyLoader Request 4)
        ⟨"c9", false, "", "unset"⟩).requests.items.head?
        = some ⟨"c9", false, "", "noauth"⟩ :=
  handle_request_auth_correlation (emptyLoader Request 4)
    ⟨"c1", true, "digest:abc", "noauth"⟩ ⟨"c1", false, "", "unset"⟩
    ⟨"c9", false, "", "unset"⟩
    (by decide) (by decide) rfl rfl rfl rfl rfl

/-- C10: the defaultdict lookup used to stamp a non-auth request *mutates* the
auth table: on a lookup miss the entry `(client, "noauth")` is inserted, so the
table grows by one entry rather than staying unchanged. -/
theorem handle_request_default_grows (st : LoaderState Request) (r : Request)
    (hna : r.is_auth = false)
    (hmiss : dictGet st.auth_by_client r.client = none) :
    (handle_request st r).auth_by_client
        = st.auth_by_client ++ [(r.client, "noauth")]
    ∧ dictGet (handle_request st r).auth_by_client r.client = some "noauth" := by
  have hget : defaultGet st.auth_by_client r.client
      = ("noauth", st.auth_by_client ++ [(r.client, "noauth")]) := by
    unfold defaultGet
    rw [hmiss]
  rw [handle_request_not_auth st r hna, hget]
  exact ⟨rfl, dictGet_append_of_none hmiss "noauth"⟩

/-- Witness for `handle_request_default_grows` on a concrete state. -/
theorem handle_request_default_grows_witness :
    (handle_request (emptyLoader Request 4) ⟨"c9", false, "", "unset"⟩).auth_by_client
        = [] ++ [("c9", "noauth")]
    ∧ dictGet
        (handle_request (emptyLoader Request 4) ⟨"c9", false, "", "unset"⟩).auth_by_client
        "c9" = some "noauth" :=
  handle_request_default_grows (emptyLoader Request 4)
    ⟨"c9", false, "", "unset"⟩ rfl rfl

/-! ## The drain loop (`QueueStatsLoader._process_queue`) -/

/-- The list comprehension `[handler(item) for handler in handlers]` inside
`_process_queue`'s try block: handlers are applied to the item in iteration
order, and the first handler that raises aborts the comprehension.  Returns
the ids of the handlers that were invoked (the raising one included) and
whether an exception was raised. -/
def dispatchItem (handlers : List (Handler α)) (item : α) : List Nat × Bool :=
  match handlers with
  | [] => ([], false)
  | h :: rest =>
    if h.fails item then ([h.hid], true)
    else
      let p := dispatchItem rest item
      (h.hid :: p.1, p.2)

/-- `QueueStatsLoader._process_queue`: pops until `IndexError` breaks the loop;
each popped item is dispatched to the handlers, any exception being caught and
logged (with the item's name/path/ip fields) so the loop continues with the
next item.  Returns the drained queue and, per popped item in pop order, the
ids of the handlers invoked on it. -/
def process_queue (queue : Deque α) (handlers : List (Handler α)) :
    Deque α × List (α × List Nat) :=
  match hq : queue.pop with
  | none => (queue, [])
  | some (item, rest) =>
    let invoked := dispatchItem handlers item
    let p := process_queue rest handlers
    (p.1, (item, invoked.1) :: p.2)
termination_by queue.items.length
decreasing_by exact Deque.pop_length_lt hq

/-- Closed form of the drain loop: every item is popped (the queue ends empty)
and each, in pop order, is dispatched via `dispatchItem`. -/
theorem process_queue_eq (queue : Deque α) (handlers : List (Handler α)) :
    process_queue queue handlers
      = (⟨[], queue.maxlen⟩,
         queue.items.reverse.map (fun it => (it, (dispatchItem handlers it).1))) := by
  generalize hn : queue.items.length = n
  induction n using Nat.strong_induction_on generalizing queue with
  | _ n ih =>
    rw [process_queue]
    split
    · rename_i hpop
      unfold Deque.pop at hpop
      cases hg : queue.items.getLast? with
      | none =>
        have hnil : queue.items = [] := by
          cases h : queue.items with
          | nil => rfl
          | cons a l => rw [h] at hg; simp [List.getLast?_concat] at hg
        cases queue
        simp only at hnil
        subst hnil
        rfl
      | some y => rw [hg] at hpop; simp at hpop
    · rename_i item rest hpop
      obtain ⟨hitems, hmax⟩ := Deque.pop_eq_some hpop
      have hlt : rest.items.length < n := by
        rw [← hn]; exact Deque.pop_length_lt hpop
      rw [ih rest.items.length hlt rest rfl, hitems, hmax]
      simp

/-- C1, counterexample: a queue holding the single item `7`, with two handlers
registered for its kind — handler `0`, which raises on every item, iterated
first, and handler `1`, which never raises.  The drain invokes only handler
`0` on the item: handler `1`, though registered for the same kind, is *not*
invoked, because the `try` in `_process_queue` wraps the whole comprehension
over the handlers rather than each call. -/
theorem process_queue_skips_rest_cex :
    (process_queue (⟨[7], 10⟩ : Deque Nat)
        [⟨0, fun _ => true⟩, ⟨1, fun _ => false⟩]).2 = [(7, [0])]
    ∧ (1 : Nat) ∉ ([0] : List Nat) := by
  rw [process_queue_eq]
  exact ⟨rfl, by decide⟩

/-- C1, amended: a handler exception inside the drain is caught and logged per
item, so every item of the queue is still popped and dispatched in the same
drain cycle; but on the item where a handler raises, only the handlers
iterated before it, plus the raising handler itself, are invoked — the
handlers iterated after the raising one are *not* invoked on that item. -/
theorem process_queue_failure_isolation (q : Deque α)
    (hs pre post : List (Handler α)) (hf : Handler α) (it : α)
    (hsplit : hs = pre ++ hf :: post)
    (hpre : ∀ h ∈ pre, h.fails it = false)
    (hraise : hf.fails it = true) :
    ((process_queue q hs).2.map Prod.fst = q.items.reverse)
    ∧ (dispatchItem hs it).1 = pre.map Handler.hid ++ [hf.hid]
    ∧ (dispatchItem hs it).2 = true := by
  refine ⟨?_, ?_⟩
  · rw [process_queue_eq]
    simp only [List.map_map]
    have hfun : (Prod.fst ∘ fun it : α => (it, (dispatchItem hs it).1)) = id := rfl
    rw [hfun, List.map_id]
  · subst hsplit
    induction pre with
    | nil => simp [dispatchItem, hraise]
    | cons h0 rest ih =>
      have h0f : h0.fails it = false := hpre h0 (by simp)
      have ihh := ih (fun h hm => hpre h (by simp [hm]))
      simp only [List.cons_append, dispatchItem, h0f, Bool.false_eq_true,
        if_false, List.map_cons]
      exact ⟨congrArg (fun l => h0.hid :: l) ihh.1, ihh.2⟩

/-- Witness for `process_queue_failure_isolation`: one clean handler, then a
raising one, then another clean one, draining a two-item queue. -/
theorem process_queue_failure_isolation_witness :
    ((process_queue (⟨[8, 7], 10⟩ : Deque Nat)
        [⟨0, fun _ => false⟩, ⟨1, fun _ => true⟩, ⟨2, fun _ => false⟩]).2.map Prod.fst
      = ([8, 7] : List Nat).reverse)
    ∧ (dispatchItem [⟨0, fun _ => false⟩, ⟨1, fun _ => true⟩,
        (⟨2, fun _ => false⟩ : Handler Nat)] 7).1
        = List.map Handler.hid [(⟨0, fun _ => false⟩ : Handler Nat)] ++ [1]
    ∧ (dispatchItem [⟨0, fun _ => false⟩, ⟨1, fun _ => true⟩,
        (⟨2, fun _ => false⟩ : Handler Nat)] 7).2 = true :=
  process_queue_failure_isolation (⟨[8, 7], 10⟩ : Deque Nat)
    [⟨0, fun _ => false⟩, ⟨1, fun _ => true⟩, ⟨2, fun _ => false⟩]
    [⟨0, fun _ => false⟩] [⟨2, fun _ => false⟩] ⟨1, fun _ => true⟩ 7
    rfl (by intro h hm; simp at hm; rw [hm]) rfl

/-! ## Registration and the consumer-loop iteration (`QueueStatsLoader.run`) -/

/-- `set.add` on a handler set: bound methods of the same object compare
equal, so adding an already-present handler leaves the set unchanged.  Sets
are modelled as lists in iteration order. -/
def setAdd (hs : List (Handler α)) (h : Handler α) : List (Handler α) :=
  if hs.any (fun h2 => h2.hid == h.hid) then hs else hs ++ [h]

/-- `d[k] = v` on the accumulator dict. -/
def dictSetAcc (d : List (String × Accumulator α)) (k : String)
    (v : Accumulator α) : List (String × Accumulator α) :=
  match d with
  | [] => [(k, v)]
  | (k1, v1) :: rest =>
    if k1 = k then (k1, v) :: rest else (k1, v1) :: dictSetAcc rest k v

/-- `QueueStatsLoader.register_accumulator`: stores the accumulator under its
name and, for each of the three `update_*_stats` capabilities it exposes
(`hasattr`), adds the bound method to the matching per-kind handler set. -/
def register_accumulator (st : LoaderState α) (name : String)
    (accumulator : Accumulator α) : LoaderState α :=
  let st1 := { st with accumulators := dictSetAcc st.accumulators name accumulator }
  let st2 := match accumulator.update_request_stats with
    | some f => { st1 with request_handlers := setAdd st1.request_handlers ⟨accumulator.aid, f⟩ }
    | none => st1
  let st3 := match accumulator.update_reply_stats with
    | some f => { st2 with reply_handlers := setAdd st2.reply_handlers ⟨accumulator.aid, f⟩ }
    | none => st2
  match accumulator.update_event_stats with
  | some f => { st3 with event_handlers := setAdd st3.event_handlers ⟨accumulator.aid, f⟩ }
  | none => st3

/-- The periodic accumulation loop in `run`:
`for accumulator in self._accumulators.values(): accumulator.accumulate_stats()`.
There is no capability check here: an accumulator that does not expose
`accumulate_stats` raises `AttributeError`, which aborts the loop (and, being
uncaught in `run`, kills the consumer thread).  Returns the ids of the
accumulators whose `accumulate_stats` ran, in dict order, and whether the loop
raised. -/
def accumulate_all (accs : List (String × Accumulator α)) : List Nat × Bool :=
  match accs with
  | [] => ([], false)
  | (_, a) :: rest =>
    if a.accumulate_stats then
      let p := accumulate_all rest
      (a.aid :: p.1, p.2)
    else ([], true)

/-- The observable events of one consumer-loop iteration: the per-queue drain
traces (item, invoked handler ids), whether the timed gate fired, the ids of
the accumulators whose `accumulate_stats` ran, and whether the accumulation
loop raised. -/
structure IterTrace (α : Type) where
  reqTrace : List (α × List Nat)
  repTrace : List (α × List Nat)
  evTrace : List (α × List Nat)
  timerFired : Bool
  accInvoked : List Nat
  accError : Bool

/-- One iteration of the consumer loop in `QueueStatsLoader.run`: drain the
three queues in order (requests, replies, events), then, if the timer reports
that 60 time units have elapsed, run `accumulate_stats()` on every registered
accumulator and reset the timer.  When the accumulation loop raises, the
`reset()` call is never reached (and the thread dies), so the timer is left
unchanged. -/
def run_iteration (st : LoaderState α) (now : Nat) : LoaderState α × IterTrace α :=
  let p1 := process_queue st.requests st.request_handlers
  let p2 := process_queue st.replies st.reply_handlers
  let p3 := process_queue st.events st.event_handlers
  let fired := st.timer.after now 60
  let pa := if fired then accumulate_all st.accumulators else ([], false)
  let timer1 := if fired && !pa.2 then st.timer.reset now else st.timer
  ({ st with requests := p1.1, replies := p2.1, events := p3.1, timer := timer1 },
   ⟨p1.2, p2.2, p3.2, fired, pa.1, pa.2⟩)

theorem accumulate_all_of_all_expose (accs : List (String × Accumulator α))
    (h : ∀ p ∈ accs, p.2.accumulate_stats = true) :
    accumulate_all accs = (accs.map (fun p => p.2.aid), false) := by
  induction accs with
  | nil => rfl
  | cons p rest ih =>
    obtain ⟨k, a⟩ := p
    have ha : a.accumulate_stats = true := h (k, a) (by simp)
    simp only [accumulate_all, ha, if_true, List.map_cons]
    rw [ih (fun q hq => h q (by simp [hq]))]

theorem accumulate_all_of_missing (pre : List (String × Accumulator α))
    (bad : String × Accumulator α) (post : List (String × Accumulator α))
    (hpre : ∀ p ∈ pre, p.2.accumulate_stats = true)
    (hbad : bad.2.accumulate_stats = false) :
    accumulate_all (pre ++ bad :: post) = (pre.map (fun p => p.2.aid), true) := by
  induction pre with
  | nil =>
    obtain ⟨k, a⟩ := bad
    simp only at hbad
    simp [accumulate_all, hbad]
  | cons p rest ih =>
    obtain ⟨k, a⟩ := p
    have ha : a.accumulate_stats = true := hpre (k, a) (by simp)
    simp only [List.cons_append, accumulate_all, ha, if_true, List.map_cons]
    exact congrArg (fun p : List Nat × Bool => (a.aid :: p.1, p.2))
      (ih (fun q hq => hpre q (by simp [hq])))

/-- C5, counterexample: the timed gate has elapsed, and two accumulators are
registered — `a` (id 1), which does *not* expose `accumulate_stats`, iterated
first, and `b` (id 2), which does.  The claim says `accumulate_stats()` is
invoked exactly once on every registered accumulator exposing it and the gate
is then reset; but the iteration invokes it on *no* accumulator (id 2's
method never runs), the accumulation loop raises `AttributeError`, and the
timer is left unreset. -/
theorem run_iteration_accumulate_cex :
    ((run_iteration
        (⟨[("a", ⟨1, none, none, none, false⟩), ("b", ⟨2, none, none, none, true⟩)],
          ⟨[], 4⟩, ⟨[], 4⟩, ⟨[], 4⟩, [], [], [], [], ⟨0⟩⟩ : LoaderState Nat)
        60).2.timerFired = true)
    ∧ ((run_iteration
        (⟨[("a", ⟨1, none, none, none, false⟩), ("b", ⟨2, none, none, none, true⟩)],
          ⟨[], 4⟩, ⟨[], 4⟩, ⟨[], 4⟩, [], [], [], [], ⟨0⟩⟩ : LoaderState Nat)
        60).2.accInvoked = [])
    ∧ ((run_iteration
        (⟨[("a", ⟨1, none, none, none, false⟩), ("b", ⟨2, none, none, none, true⟩)],
          ⟨[], 4⟩, ⟨[], 4⟩, ⟨[], 4⟩, [], [], [], [], ⟨0⟩⟩ : LoaderState Nat)
        60).2.accError = true)
    ∧ ((run_iteration
        (⟨[("a", ⟨1, none, none, none, false⟩), ("b", ⟨2, none, none, none, true⟩)],
          ⟨[], 4⟩, ⟨[], 4⟩, ⟨[], 4⟩, [], [], [], [], ⟨0⟩⟩ : LoaderState Nat)
        60).1.timer = ⟨0⟩) := by
  simp only [run_iteration, process_queue_eq]
  refine ⟨rfl, rfl, rfl, rfl⟩

/-- C5, amended: on a consumer-loop iteration, after the three queues are
drained, `accumulate_stats()` is attempted on every registered accumulator
unconditionally.  (i) If the gate reports its 60-unit period elapsed and every
registered accumulator exposes the method, it is invoked exactly once per
registered accumulator, in registration order, and the gate is reset.
(ii) If the gate has not fired, no `accumulate_stats()` is invoked and the
gate is untouched.  (iii) If the gate fired but some registered accumulator
does not expose the method, the loop raises `AttributeError` when it reaches
the first such accumulator: only the accumulators before it are invoked, and
the gate is not reset. -/
theorem run_iteration_accumulate (st : LoaderState α) (now : Nat) :
    (st.timer.after now 60 = true →
      (∀ p ∈ st.accumulators, p.2.accumulate_stats = true) →
        (run_iteration st now).2.accInvoked = st.accumulators.map (fun p => p.2.aid)
        ∧ (run_iteration st now).2.accError = false
        ∧ (run_iteration st now).1.timer = st.timer.reset now)
    ∧ (st.timer.after now 60 = false →
        (run_iteration st now).2.accInvoked = []
        ∧ (run_iteration st now).2.accError = false
        ∧ (run_iteration st now).1.timer = st.timer)
    ∧ (st.timer.after now 60 = true →
        ∀ pre bad post, st.accumulators = pre ++ bad :: post →
          (∀ p ∈ pre, p.2.accumulate_stats = true) →
          bad.2.accumulate_stats = false →
            (run_iteration st now).2.accInvoked = pre.map (fun p => p.2.aid)
            ∧ (run_iteration st now).2.accError = true
            ∧ (run_iteration st now).1.timer = st.timer) := by
  refine ⟨?_, ?_, ?_⟩
  · intro hfired hall
    have hacc := accumulate_all_of_all_expose st.accumulators hall
    simp only [run_iteration, hfired, if_true, hacc]
    refine ⟨?_, ?_, ?_⟩ <;> trivial
  · intro hfired
    simp only [run_iteration, hfired, Bool.false_eq_true, if_false,
      Bool.false_and]
    refine ⟨?_, ?_, ?_⟩ <;> trivial
  · intro hfired pre bad post hsplit hpre hbad
    have hacc := accumulate_all_of_missing pre bad post hpre hbad
    simp only [run_iteration, hfired, if_true, hsplit, hacc]
    refine ⟨?_, ?_, ?_⟩ <;> trivial

/-- Witness for `run_iteration_accumulate`.  Clause (i): two accumulators both
exposing `accumulate_stats`, fired gate.  Clause (ii): the same state with the
gate not yet elapsed.  Clause (iii): a first accumulator lacking the method,
fired gate. -/
theorem run_iteration_accumulate_witness :
    ((⟨0⟩ : Timer).after 60 60 = true)
    ∧ ((run_iteration
        (⟨[("a", ⟨1, none, none, none, true⟩), ("b", ⟨2, none, none, none, true⟩)],
          ⟨[], 4⟩, ⟨[], 4⟩, ⟨[], 4⟩, [], [], [], [], ⟨0⟩⟩ : LoaderState Nat)
        60).2.accInvoked
        = ([("a", (⟨1, none, none, none, true⟩ : Accumulator Nat)),
            ("b", ⟨2, none, none, none, true⟩)]).map (fun p => p.2.aid)
      ∧ (run_iteration
        (⟨[("a", ⟨1, none, none, none, true⟩), ("b", ⟨2, none, none, none, true⟩)],
          ⟨[], 4⟩, ⟨[], 4⟩, ⟨[], 4⟩, [], [], [], [], ⟨0⟩⟩ : LoaderState Nat)
        60).2.accError = false
      ∧ (run_iteration
        (⟨[("a", ⟨1, none, none, none, true⟩), ("b", ⟨2, none, none, none, true⟩)],
          ⟨[], 4⟩, ⟨[], 4⟩, ⟨[], 4⟩, [], [], [], [], ⟨0⟩⟩ : LoaderState Nat)
        60).1.timer = (⟨0⟩ : Timer).reset 60)
    ∧ ((⟨0⟩ : Timer).after 10 60 = false)
    ∧ ((run_iteration
        (⟨[("a", ⟨1, none, none, none, true⟩), ("b", ⟨2, none, none, none, true⟩)],
          ⟨[], 4⟩, ⟨[], 4⟩, ⟨[], 4⟩, [], [], [], [], ⟨0⟩⟩ : LoaderState Nat)
        10).2.accInvoked = []
      ∧ (run_iteration
        (⟨[("a", ⟨1, none, none, none, true⟩), ("b", ⟨2, none, none, none, true⟩)],
          ⟨[], 4⟩, ⟨[], 4⟩, ⟨[], 4⟩, [], [], [], [], ⟨0⟩⟩ : LoaderState Nat)
        10).2.accError = false
      ∧ (run_iteration
        (⟨[("a", ⟨1, none, none, none, true⟩), ("b", ⟨2, none, none, none, true⟩)],
          ⟨[], 4⟩, ⟨[], 4⟩, ⟨[], 4⟩, [], [], [], [], ⟨0⟩⟩ : LoaderState Nat)
        10).1.timer = (⟨0⟩ : Timer))
    ∧ ((run_iteration
        (⟨[("a", ⟨1, none, none, none, false⟩), ("b", ⟨2, none, none, none, true⟩)],
          ⟨[], 4⟩, ⟨[], 4⟩, ⟨[], 4⟩, [], [], [], [], ⟨0⟩⟩ : LoaderState Nat)
        60).2.accInvoked = []
      ∧ (run_iteration
        (⟨[("a", ⟨1, none, none, none, false⟩), ("b", ⟨2, none, none, none, true⟩)],
          ⟨[], 4⟩, ⟨[], 4⟩, ⟨[], 4⟩, [], [], [], [], ⟨0⟩⟩ : LoaderState Nat)
        60).2.accError = true
      ∧ (run_iteration
        (⟨[("a", ⟨1, none, none, none, false⟩), ("b", ⟨2, none, none, none, true⟩)],
          ⟨[], 4⟩, ⟨[], 4⟩, ⟨[], 4⟩, [], [], [], [], ⟨0⟩⟩ : LoaderState Nat)
        60).1.timer = (⟨0⟩ : Timer)) :=
  ⟨rfl,
   (run_iteration_accumulate
      (⟨[("a", ⟨1, none, none, none, true⟩), ("b", ⟨2, none, none, none, true⟩)],
        ⟨[], 4⟩, ⟨[], 4⟩, ⟨[], 4⟩, [], [], [], [], ⟨0⟩⟩ : LoaderState Nat)
      60).1 rfl
     (by
       intro p hp
       simp only [List.mem_cons, List.mem_singleton] at hp
       rcases hp with h | h | h
       · rw [h]
       · rw [h]
       · exact absurd h (by simp)),
   rfl,
   (run_iteration_accumulate
      (⟨[("a", ⟨1, none, none, none, true⟩), ("b", ⟨2, none, none, none, true⟩)],
        ⟨[], 4⟩, ⟨[], 4⟩, ⟨[], 4⟩, [], [], [], [], ⟨0⟩⟩ : LoaderState Nat)
      10).2.1 rfl,
   (run_iteration_accumulate
      (⟨[("a", ⟨1, none, none, none, false⟩), ("b", ⟨2, none, none, none, true⟩)],
        ⟨[], 4⟩, ⟨[], 4⟩, ⟨[], 4⟩, [], [], [], [], ⟨0⟩⟩ : LoaderState Nat)
      60).2.2 rfl []
     ("a", ⟨1, none, none, none, false⟩) [("b", ⟨2, none, none, none, true⟩)]
     rfl (by intro p hp; exact absurd hp (by simp)) rfl⟩

/-! ## Capability dispatch (C8) -/

theorem mem_setAdd {hs : List (Handler α)} {h h0 : Handler α}
    (hm : h ∈ setAdd hs h0) : h ∈ hs ∨ h = h0 := by
  unfold setAdd at hm
  split at hm
  · exact Or.inl hm
  · rw [List.mem_append] at hm
    rcases hm with h1 | h2
    · exact Or.inl h1
    · exact Or.inr (by simpa using h2)

theorem mem_register_request_handlers {st : LoaderState α} {name : String}
    {a : Accumulator α} {h : Handler α}
    (hm : h ∈ (register_accumulator st name a).request_handlers) :
    h ∈ st.request_handlers ∨ (a.update_request_stats.isSome ∧ h.hid = a.aid) := by
  unfold register_accumulator at hm
  cases he : a.update_event_stats <;> cases hp : a.update_reply_stats <;>
    cases hr : a.update_request_stats <;>
    simp only [he, hp, hr] at hm
  case none.none.none => exact Or.inl hm
  case none.none.some f =>
    rcases mem_setAdd hm with h1 | h2
    · exact Or.inl h1
    · exact Or.inr ⟨rfl, by rw [h2]⟩
  case none.some.none => exact Or.inl hm
  case none.some.some g f =>
    rcases mem_setAdd hm with h1 | h2
    · exact Or.inl h1
    · exact Or.inr ⟨rfl, by rw [h2]⟩
  case some.none.none => exact Or.inl hm
  case some.none.some g f =>
    rcases mem_setAdd hm with h1 | h2
    · exact Or.inl h1
    · exact Or.inr ⟨rfl, by rw [h2]⟩
  case some.some.none => exact Or.inl hm
  case some.some.some g1 g2 f =>
    rcases mem_setAdd hm with h1 | h2
    · exact Or.inl h1
    · exact Or.inr ⟨rfl, by rw [h2]⟩

theorem mem_register_event_handlers {st : LoaderState α} {name : String}
    {a : Accumulator α} {h : Handler α}
    (hm : h ∈ (register_accumulator st name a).event_handlers) :
    h ∈ st.event_handlers ∨ (a.update_event_stats.isSome ∧ h.hid = a.aid) := by
  unfold register_accumulator at hm
  cases he : a.update_event_stats <;> cases hp : a.update_reply_stats <;>
    cases hr : a.update_request_stats <;>
    simp only [he, hp, hr] at hm
  case none.none.none => exact Or.inl hm
  case none.none.some f => exact Or.inl hm
  case none.some.none => exact Or.inl hm
  case none.some.some g f => exact Or.inl hm
  all_goals
    rcases mem_setAdd hm with h1 | h2
  all_goals
    first
    | exact Or.inl h1
    | exact Or.inr ⟨rfl, by rw [h2]⟩

theorem mem_foldl_register_request_handlers
    (regs : List (String × Accumulator α)) (st0 : LoaderState α) (h : Handler α)
    (hm : h ∈ (regs.foldl (fun s p => register_accumulator s p.1 p.2) st0).request_handlers) :
    h ∈ st0.request_handlers
    ∨ ∃ p ∈ regs, p.2.update_request_stats.isSome ∧ h.hid = p.2.aid := by
  induction regs generalizing st0 with
  | nil => exact Or.inl hm
  | cons q rest ih =>
    rcases ih _ hm with hin | ⟨p, hp, hs⟩
    · rcases mem_register_request_handlers hin with h1 | h2
      · exact Or.inl h1
      · exact Or.inr ⟨q, by simp, h2⟩
    · exact Or.inr ⟨p, by simp [hp], hs⟩

theorem mem_foldl_register_event_handlers
    (regs : List (String × Accumulator α)) (st0 : LoaderState α) (h : Handler α)
    (hm : h ∈ (regs.foldl (fun s p => register_accumulator s p.1 p.2) st0).event_handlers) :
    h ∈ st0.event_handlers
    ∨ ∃ p ∈ regs, p.2.update_event_stats.isSome ∧ h.hid = p.2.aid := by
  induction regs generalizing st0 with
  | nil => exact Or.inl hm
  | cons q rest ih =>
    rcases ih _ hm with hin | ⟨p, hp, hs⟩
    · rcases mem_register_event_handlers hin with h1 | h2
      · exact Or.inl h1
      · exact Or.inr ⟨q, by simp, h2⟩
    · exact Or.inr ⟨p, by simp [hp], hs⟩

theorem mem_dispatchItem {hs : List (Handler α)} {it : α} {i : Nat}
    (hm : i ∈ (dispatchItem hs it).1) : ∃ h ∈ hs, h.hid = i := by
  induction hs with
  | nil => simp [dispatchItem] at hm
  | cons h rest ih =>
    unfold dispatchItem at hm
    split at hm
    · simp only [List.mem_singleton] at hm
      exact ⟨h, by simp, hm.symm⟩
    · simp only [List.mem_cons] at hm
      rcases hm with he | hi
      · exact ⟨h, by simp, he.symm⟩
      · obtain ⟨h2, hh2, hid⟩ := ih hi
        exact ⟨h2, by simp [hh2], hid⟩

/-- C8: after any sequence of `register_accumulator` calls on a fresh loader,
an accumulator's method sits in a kind's handler set only if the accumulator
exposes that method, and each drained item is dispatched only to its own
kind's handler set.  Hence, whatever the three queues contain (`qr`, `qp`,
`qe` are arbitrary queue contents, enqueued before the iteration), an
accumulator with id `k` that exposes neither `update_request_stats` nor
`update_event_stats` — e.g. one exposing only `update_reply_stats` — is never
invoked on a request or event item. -/
theorem register_capability_dispatch (regs : List (String × Accumulator α))
    (cap : Nat) (qr qp qe : Deque α) (now : Nat) (k : Nat)
    (hreq : ∀ p ∈ regs, p.2.aid = k → p.2.update_request_stats = none)
    (hev : ∀ p ∈ regs, p.2.aid = k → p.2.update_event_stats = none) :
    (∀ h ∈ (regs.foldl (fun s p => register_accumulator s p.1 p.2)
        (emptyLoader α cap)).request_handlers, h.hid ≠ k)
    ∧ (∀ h ∈ (regs.foldl (fun s p => register_accumulator s p.1 p.2)
        (emptyLoader α cap)).event_handlers, h.hid ≠ k)
    ∧ (∀ entry ∈ (run_iteration
        { regs.foldl (fun s p => register_accumulator s p.1 p.2) (emptyLoader α cap) with
          requests := qr, replies := qp, events := qe } now).2.reqTrace,
        k ∉ entry.2)
    ∧ (∀ entry ∈ (run_iteration
        { regs.foldl (fun s p => register_accumulator s p.1 p.2) (emptyLoader α cap) with
          requests := qr, replies := qp, events := qe } now).2.evTrace,
        k ∉ entry.2) := by
  have hreqh : ∀ h ∈ (regs.foldl (fun s p => register_accumulator s p.1 p.2)
      (emptyLoader α cap)).request_handlers, h.hid ≠ k := by
    intro h hm hk
    rcases mem_foldl_register_request_handlers regs _ h hm with hin | ⟨p, hp, hsome, hid⟩
    · simp [emptyLoader] at hin
    · rw [hk] at hid
      rw [hreq p hp hid.symm] at hsome
      simp at hsome
  have hevh : ∀ h ∈ (regs.foldl (fun s p => register_accumulator s p.1 p.2)
      (emptyLoader α cap)).event_handlers, h.hid ≠ k := by
    intro h hm hk
    rcases mem_foldl_register_event_handlers regs _ h hm with hin | ⟨p, hp, hsome, hid⟩
    · simp [emptyLoader] at hin
    · rw [hk] at hid
      rw [hev p hp hid.symm] at hsome
      simp at hsome
  refine ⟨hreqh, hevh, ?_, ?_⟩
  · intro entry hment hk
    simp only [run_iteration, process_queue_eq, List.mem_map] at hment
    obtain ⟨it, hit, hent⟩ := hment
    rw [← hent] at hk
    obtain ⟨h, hh, hid⟩ := mem_dispatchItem hk
    exact hreqh h hh hid
  · intro entry hment hk
    simp only [run_iteration, process_queue_eq, List.mem_map] at hment
    obtain ⟨it, hit, hent⟩ := hment
    rw [← hent] at hk
    obtain ⟨h, hh, hid⟩ := mem_dispatchItem hk
    exact hevh h hh hid

/-- Witness for `register_capability_dispatch`: one accumulator (id 5)
exposing only `update_reply_stats`, with nonempty request and event queues. -/
theorem register_capability_dispatch_witness :
    ((∀ p ∈ [("r", (⟨5, none, some (fun _ => false), none, true⟩ : Accumulator Nat))],
        p.2.aid = 5 → p.2.update_request_stats = none)
     ∧ (∀ p ∈ [("r", (⟨5, none, some (fun _ => false), none, true⟩ : Accumulator Nat))],
        p.2.aid = 5 → p.2.update_event_stats = none))
    ∧ ((∀ h ∈ (([("r", (⟨5, none, some (fun _ => false), none, true⟩ : Accumulator Nat))]).foldl
          (fun s p => register_accumulator s p.1 p.2) (emptyLoader Nat 4)).request_handlers,
          h.hid ≠ 5)
      ∧ (∀ h ∈ (([("r", (⟨5, none, some (fun _ => false), none, true⟩ : Accumulator Nat))]).foldl
          (fun s p => register_accumulator s p.1 p.2) (emptyLoader Nat 4)).event_handlers,
          h.hid ≠ 5)
      ∧ (∀ entry ∈ (run_iteration
          { ([("r", (⟨5, none, some (fun _ => false), none, true⟩ : Accumulator Nat))]).foldl
              (fun s p => register_accumulator s p.1 p.2) (emptyLoader Nat 4) with
            requests := ⟨[3], 4⟩, replies := ⟨[4], 4⟩, events := ⟨[9], 4⟩ } 0).2.reqTrace,
          (5 : Nat) ∉ entry.2)
      ∧ (∀ entry ∈ (run_iteration
          { ([("r", (⟨5, none, some (fun _ => false), none, true⟩ : Accumulator Nat))]).foldl
              (fun s p => register_accumulator s p.1 p.2) (emptyLoader Nat 4) with
            requests := ⟨[3], 4⟩, replies := ⟨[4], 4⟩, events := ⟨[9], 4⟩ } 0).2.evTrace,
          (5 : Nat) ∉ entry.2)) :=
  ⟨⟨fun p hp _ => by
      simp only [List.mem_singleton] at hp
      rw [hp],
    fun p hp _ => by
      simp only [List.mem_singleton] at hp
      rw [hp]⟩,
   register_capability_dispatch
     [("r", (⟨5, none, some (fun _ => false), none, true⟩ : Accumulator Nat))]
     4 ⟨[3], 4⟩ ⟨[4], 4⟩ ⟨[9], 4⟩ 0 5
     (fun p hp _ => by
       simp only [List.mem_singleton] at hp
       rw [hp])
     (fun p hp _ => by
       simp only [List.mem_singleton] at hp
       rw [hp])⟩

/-! ## The Sniffer (`zktraffic/network/sniffer.py`) -/

/-- An `Exception`-class failure that can arise while decoding or dispatching a
frame: `BadPacket`, `struct.error`, or any other exception type.  (Python
exceptions outside the `Exception` hierarchy, such as `KeyboardInterrupt`, are
not protocol or handler failures and are outside this model.) -/
inductive PyErr where
  | badPacket (msg : String)
  | structError (msg : String)
  | otherError (msg : String)
deriving DecidableEq, Repr

/-- The TCP segment carried by a decoded IP packet: source/destination ports
and the payload bytes (`ip_p.data`). -/
structure IpData where
  sport : Nat
  dport : Nat
  data : List Nat
deriving DecidableEq, Repr

/-- A decoded IP packet (`ip_p`): raw source/destination addresses plus the
transport segment. -/
structure IpPacket where
  src : String
  dst : String
  data : IpData
deriving DecidableEq, Repr

/-- A captured frame as scapy hands it to the callback: raw bytes and the
capture timestamp. -/
structure Packet where
  load : List Nat
  time : Nat
deriving DecidableEq, Repr

/-- A handler registered on the Sniffer: `hid` is the identity used by the
`handler in self._handlers` duplicate check, `run` its behaviour on a message
(`some e` models the handler raising `e`). -/
structure SHandler (μ : Type) where
  hid : Nat
  run : μ → Option PyErr

/-- The Sniffer's state: the filtered port, the injected message decoder
(`msg_cls.from_payload`, which may raise), the handler list, the
`dump_bad_packet` flag and whether the interface is loopback. -/
structure Sniffer (μ : Type) where
  port : Nat
  msg_cls : List Nat → String → String → Nat → Except PyErr μ
  handlers : List (SHandler μ)
  dump_bad_packet : Bool
  is_loopback : Bool

/-- `Sniffer.add_handler`: `RegistrationError` when the handler is `None` or
already registered; otherwise the handler is appended to the list. -/
def add_handler (s : Sniffer μ) (handler : Option (SHandler μ)) :
    Except String (Sniffer μ) :=
  match handler with
  | none => .error "handler is none"
  | some h =>
    if s.handlers.any (fun h2 => h2.hid == h.hid) then
      .error "handler has already been added"
    else .ok { s with handlers := s.handlers ++ [h] }

/-- `Sniffer.handle_message`: a plain `for` loop over the handler list.  Each
handler is invoked in registration order; a raising handler stops the loop and
its exception propagates to the caller.  Returns the invoked handler ids and
the escaping exception, if any. -/
def handle_message (handlers : List (SHandler μ)) (message : μ) :
    List Nat × Option PyErr :=
  match handlers with
  | [] => ([], none)
  | h :: rest =>
    match h.run message with
    | some e => ([h.hid], some e)
    | none =>
      let p := handle_message rest message
      (h.hid :: p.1, p.2)

/-- `Sniffer.message_from_packet`.  `gip` stands for `get_ip_packet` and
`gaddr` for `get_ip`, both from `zktraffic.base.network`, which is not among
the given source files; the spec treats the IP capture/reassembly primitives
as external collaborators, so they are injected as parameters (`gip` may
raise, e.g. `struct.error` on truncated bytes).  An empty transport payload
yields `none` (no message); otherwise, if neither port matches the configured
one, `BadPacket "Wrong port"` is raised; otherwise the injected decoder is
called on the payload bytes, the interned `ip:port` endpoint strings and the
frame's capture timestamp. -/
def message_from_packet (gip : List Nat → Nat → Bool → Except PyErr IpPacket)
    (gaddr : IpPacket → String → String) (s : Sniffer μ) (packet : Packet) :
    Except PyErr (Option μ) :=
  match gip packet.load s.port s.is_loopback with
  | .error e => .error e
  | .ok ip_p =>
    if ip_p.data.data.length = 0 then .ok none
    else if ip_p.data.sport ≠ s.port ∧ ip_p.data.dport ≠ s.port then
      .error (.badPacket "Wrong port")
    else
      (s.msg_cls ip_p.data.data
        (gaddr ip_p ip_p.src ++ ":" ++ toString ip_p.data.sport)
        (gaddr ip_p ip_p.dst ++ ":" ++ toString ip_p.data.dport)
        packet.time).map some

/-- The observable outcome of `handle_packet` on one frame: which handlers ran,
whether the diagnostic hex dump was emitted, and whether an exception escaped
to the caller (the capture loop). -/
structure HandleResult where
  invoked : List Nat
  dumped : Bool
  propagated : Bool
deriving DecidableEq, Repr

/-- `Sniffer.handle_packet`: the per-frame capture callback.  The try block
decodes the frame and, when a message came out, dispatches it via
`handle_message`; `except (BadPacket, struct.error)` dumps only when
`dump_bad_packet` is set, and the final `except Exception` always dumps.
Every `Exception`-class failure is caught, so nothing propagates and the frame
is simply dropped. -/
def handle_packet (gip : List Nat → Nat → Bool → Except PyErr IpPacket)
    (gaddr : IpPacket → String → String) (s : Sniffer μ) (packet : Packet) :
    HandleResult :=
  let body : List Nat × Option PyErr :=
    match message_from_packet gip gaddr s packet with
    | .error e => ([], some e)
    | .ok none => ([], none)
    | .ok (some message) => handle_message s.handlers message
  match body.2 with
  | none => ⟨body.1, false, false⟩
  | some (.badPacket _) => ⟨body.1, s.dump_bad_packet, false⟩
  | some (.structError _) => ⟨body.1, s.dump_bad_packet, false⟩
  | some (.otherError _) => ⟨body.1, true, false⟩

/-- C4: `handle_packet` never propagates an exception — every `Exception`-class
failure during decode or handler dispatch is caught and the frame dropped.  A
`BadPacket` or `struct.error` raised by the decode dumps diagnostics only when
the `dump_bad_packet` flag is set (no handler having been invoked); any other
decode failure always dumps; and an exception raised *inside a handler* is
likewise caught, the frame being dropped without the dump flag mattering for
`BadPacket`/`struct.error` and with an unconditional dump otherwise. -/
theorem handle_packet_containment
    (gip : List Nat → Nat → Bool → Except PyErr IpPacket)
    (gaddr : IpPacket → String → String) (s : Sniffer μ) (packet : Packet) :
    ((handle_packet gip gaddr s packet).propagated = false)
    ∧ (∀ m, message_from_packet gip gaddr s packet = .error (.badPacket m) →
        handle_packet gip gaddr s packet = ⟨[], s.dump_bad_packet, false⟩)
    ∧ (∀ m, message_from_packet gip gaddr s packet = .error (.structError m) →
        handle_packet gip gaddr s packet = ⟨[], s.dump_bad_packet, false⟩)
    ∧ (∀ m, message_from_packet gip gaddr s packet = .error (.otherError m) →
        handle_packet gip gaddr s packet = ⟨[], true, false⟩)
    ∧ (∀ message m, message_from_packet gip gaddr s packet = .ok (some message) →
        (handle_message s.handlers message).2 = some (.otherError m) →
        handle_packet gip gaddr s packet
          = ⟨(handle_message s.handlers message).1, true, false⟩) := by
  refine ⟨?_, ?_, ?_, ?_, ?_⟩
  · unfold handle_packet
    cases hm : message_from_packet gip gaddr s packet with
    | error e => cases e <;> simp [hm]
    | ok mo =>
      cases mo with
      | none => simp [hm]
      | some message =>
        simp only [hm]
        cases hb : (handle_message s.handlers message).2 with
        | none => simp [hb]
        | some e => cases e <;> simp [hb]
  · intro m hm
    unfold handle_packet
    simp [hm]
  · intro m hm
    unfold handle_packet
    simp [hm]
  · intro m hm
    unfold handle_packet
    simp [hm]
  · intro message m hm hb
    unfold handle_packet
    simp [hm, hb]

/-- Witness for `handle_packet_containment`: a frame whose decode raises
`BadPacket "Wrong port"` (non-empty payload, both ports wrong), with the dump
flag off. -/
theorem handle_packet_containment_witness :
    ((handle_packet (fun _ _ _ => .ok ⟨"10.0.0.1", "10.0.0.2", ⟨9, 9, [1]⟩⟩)
        (fun _ a => a)
        (⟨2181, fun _ _ _ _ => .error (.otherError "unused"), [], false, false⟩ : Sniffer Nat)
        ⟨[1], 7⟩).propagated = false)
    ∧ (message_from_packet (fun _ _ _ => .ok ⟨"10.0.0.1", "10.0.0.2", ⟨9, 9, [1]⟩⟩)
        (fun _ a => a)
        (⟨2181, fun _ _ _ _ => .error (.otherError "unused"), [], false, false⟩ : Sniffer Nat)
        ⟨[1], 7⟩ = .error (.badPacket "Wrong port"))
    ∧ (handle_packet (fun _ _ _ => .ok ⟨"10.0.0.1", "10.0.0.2", ⟨9, 9, [1]⟩⟩)
        (fun _ a => a)
        (⟨2181, fun _ _ _ _ => .error (.otherError "unused"), [], false, false⟩ : Sniffer Nat)
        ⟨[1], 7⟩ = ⟨[], false, false⟩)
    ∧ (handle_packet (fun _ _ _ => .ok ⟨"10.0.0.1", "10.0.0.2", ⟨2181, 9, [1]⟩⟩)
        (fun _ a => a)
        (⟨2181, fun _ _ _ t => .ok t,
          [⟨0, fun _ => some (.otherError "boom")⟩], false, false⟩ : Sniffer Nat)
        ⟨[1], 7⟩ = ⟨[0], true, false⟩) := by
  have hmsg : message_from_packet (fun _ _ _ => .ok ⟨"10.0.0.1", "10.0.0.2", ⟨9, 9, [1]⟩⟩)
      (fun _ a => a)
      (⟨2181, fun _ _ _ _ => .error (.otherError "unused"), [], false, false⟩ : Sniffer Nat)
      ⟨[1], 7⟩ = .error (.badPacket "Wrong port") := by
    unfold message_from_packet
    simp
  have hc := handle_packet_containment
    (fun _ _ _ => .ok ⟨"10.0.0.1", "10.0.0.2", ⟨9, 9, [1]⟩⟩) (fun _ a => a)
    (⟨2181, fun _ _ _ _ => .error (.otherError "unused"), [], false, false⟩ : Sniffer Nat)
    ⟨[1], 7⟩
  have hmsg2 : message_from_packet (fun _ _ _ => .ok ⟨"10.0.0.1", "10.0.0.2", ⟨2181, 9, [1]⟩⟩)
      (fun _ a => a)
      (⟨2181, fun _ _ _ t => .ok t,
        [⟨0, fun _ => some (.otherError "boom")⟩], false, false⟩ : Sniffer Nat)
      ⟨[1], 7⟩ = .ok (some 7) := by
    unfold message_from_packet
    simp [Except.map]
  have hc2 := handle_packet_containment
    (fun _ _ _ => .ok ⟨"10.0.0.1", "10.0.0.2", ⟨2181, 9, [1]⟩⟩) (fun _ a => a)
    (⟨2181, fun _ _ _ t => .ok t,
      [⟨0, fun _ => some (.otherError "boom")⟩], false, false⟩ : Sniffer Nat)
    ⟨[1], 7⟩
  exact ⟨hc.1, hmsg, hc.2.1 "Wrong port" hmsg,
    hc2.2.2.2.2 7 "boom" hmsg2 rfl⟩

/-- C6: for a frame with a non-empty transport payload, `message_from_packet`
raises `BadPacket "Wrong port"` exactly when neither the source nor the
destination port equals the configured port; when either matches, it calls the
injected decoder on the payload bytes, the `ip:port` endpoint strings and the
frame's capture timestamp. -/
theorem message_from_packet_port_filter
    (gip : List Nat → Nat → Bool → Except PyErr IpPacket)
    (gaddr : IpPacket → String → String) (s : Sniffer μ) (packet : Packet)
    (ip_p : IpPacket)
    (hp : gip packet.load s.port s.is_loopback = .ok ip_p)
    (hne : ip_p.data.data.length ≠ 0) :
    (ip_p.data.sport ≠ s.port ∧ ip_p.data.dport ≠ s.port →
      message_from_packet gip gaddr s packet = .error (.badPacket "Wrong port"))
    ∧ (ip_p.data.sport = s.port ∨ ip_p.data.dport = s.port →
      message_from_packet gip gaddr s packet
        = (s.msg_cls ip_p.data.data
            (gaddr ip_p ip_p.src ++ ":" ++ toString ip_p.data.sport)
            (gaddr ip_p ip_p.dst ++ ":" ++ toString ip_p.data.dport)
            packet.time).map some) := by
  constructor
  · intro hboth
    unfold message_from_packet
    rw [hp]
    simp only [hne, if_false, if_pos hboth]
  · intro heither
    unfold message_from_packet
    rw [hp]
    have hnot : ¬ (ip_p.data.sport ≠ s.port ∧ ip_p.data.dport ≠ s.port) := by
      rcases heither with h | h
      · intro hc; exact hc.1 h
      · intro hc; exact hc.2 h
    simp only [hne, if_false, if_neg hnot]

/-- Witness for `message_from_packet_port_filter`: payload `[1]`, source port
matching the configured port 2181. -/
theorem message_from_packet_port_filter_witness :
    ((fun (_ : List Nat) (_ : Nat) (_ : Bool) =>
        (.ok ⟨"a", "b", ⟨2181, 40000, [1]⟩⟩ : Except PyErr IpPacket)) [5] 2181 false
      = .ok ⟨"a", "b", ⟨2181, 40000, [1]⟩⟩)
    ∧ ((⟨"a", "b", ⟨2181, 40000, [1]⟩⟩ : IpPacket).data.data.length ≠ 0)
    ∧ (message_from_packet
          (fun _ _ _ => .ok ⟨"a", "b", ⟨2181, 40000, [1]⟩⟩) (fun _ a => a)
          (⟨2181, fun _ _ _ t => .ok t, [], false, false⟩ : Sniffer Nat) ⟨[5], 7⟩
        = ((⟨2181, fun _ _ _ t => .ok t, [], false, false⟩ : Sniffer Nat).msg_cls
            (⟨"a", "b", ⟨2181, 40000, [1]⟩⟩ : IpPacket).data.data
            ((fun (_ : IpPacket) (a : String) => a) ⟨"a", "b", ⟨2181, 40000, [1]⟩⟩
                (⟨"a", "b", ⟨2181, 40000, [1]⟩⟩ : IpPacket).src
              ++ ":" ++ toString (⟨"a", "b", ⟨2181, 40000, [1]⟩⟩ : IpPacket).data.sport)
            ((fun (_ : IpPacket) (a : String) => a) ⟨"a", "b", ⟨2181, 40000, [1]⟩⟩
                (⟨"a", "b", ⟨2181, 40000, [1]⟩⟩ : IpPacket).dst
              ++ ":" ++ toString (⟨"a", "b", ⟨2181, 40000, [1]⟩⟩ : IpPacket).data.dport)
            (⟨[5], 7⟩ : Packet).time).map some) :=
  ⟨rfl, by decide,
   (message_from_packet_port_filter
      (fun _ _ _ => .ok ⟨"a", "b", ⟨2181, 40000, [1]⟩⟩) (fun _ a => a)
      (⟨2181, fun _ _ _ t => .ok t, [], false, false⟩ : Sniffer Nat) ⟨[5], 7⟩
      ⟨"a", "b", ⟨2181, 40000, [1]⟩⟩ rfl (by decide)).2 (Or.inl rfl)⟩

/-- C7: a frame whose transport payload is empty decodes to `none` without any
error — even when neither port matches the configured port — and
`handle_packet` then invokes no handler (and emits no dump). -/
theorem message_from_packet_empty_payload
    (gip : List Nat → Nat → Bool → Except PyErr IpPacket)
    (gaddr : IpPacket → String → String) (s : Sniffer μ) (packet : Packet)
    (ip_p : IpPacket)
    (hp : gip packet.load s.port s.is_loopback = .ok ip_p)
    (he : ip_p.data.data.length = 0) :
    message_from_packet gip gaddr s packet = .ok none
    ∧ handle_packet gip gaddr s packet = ⟨[], false, false⟩ := by
  have hmsg : message_from_packet gip gaddr s packet = .ok none := by
    unfold message_from_packet
    rw [hp]
    simp only [he, if_pos rfl]
    simp
  refine ⟨hmsg, ?_⟩
  unfold handle_packet
  simp [hmsg]

/-- Witness for `message_from_packet_empty_payload`: an empty payload on a
frame where neither port matches the configured port 2181. -/
theorem message_from_packet_empty_payload_witness :
    ((fun (_ : List Nat) (_ : Nat) (_ : Bool) =>
        (.ok ⟨"a", "b", ⟨9, 9, []⟩⟩ : Except PyErr IpPacket)) [5] 2181 false
      = .ok ⟨"a", "b", ⟨9, 9, []⟩⟩)
    ∧ ((⟨"a", "b", ⟨9, 9, []⟩⟩ : IpPacket).data.data.length = 0)
    ∧ (message_from_packet (fun _ _ _ => .ok ⟨"a", "b", ⟨9, 9, []⟩⟩) (fun _ a => a)
        (⟨2181, fun _ _ _ t => .ok t, [⟨0, fun _ => none⟩], false, false⟩ : Sniffer Nat)
        ⟨[5], 7⟩ = .ok none
      ∧ handle_packet (fun _ _ _ => .ok ⟨"a", "b", ⟨9, 9, []⟩⟩) (fun _ a => a)
        (⟨2181, fun _ _ _ t => .ok t, [⟨0, fun _ => none⟩], false, false⟩ : Sniffer Nat)
        ⟨[5], 7⟩ = ⟨[], false, false⟩) :=
  ⟨rfl, by decide,
   message_from_packet_empty_payload (fun _ _ _ => .ok ⟨"a", "b", ⟨9, 9, []⟩⟩)
     (fun _ a => a)
     (⟨2181, fun _ _ _ t => .ok t, [⟨0, fun _ => none⟩], false, false⟩ : Sniffer Nat)
     ⟨[5], 7⟩ ⟨"a", "b", ⟨9, 9, []⟩⟩ rfl (by decide)⟩

theorem handle_message_all_ok (handlers : List (SHandler μ)) (m : μ)
    (hok : ∀ h2 ∈ handlers, h2.run m = none) :
    handle_message handlers m = (handlers.map SHandler.hid, none) := by
  induction handlers with
  | nil => rfl
  | cons h0 rest ih =>
    have h0ok : h0.run m = none := hok h0 (by simp)
    simp only [handle_message, h0ok, List.map_cons]
    rw [ih (fun h2 hm2 => hok h2 (by simp [hm2]))]

/-- C9: `add_handler` raises `RegistrationError` if and only if the handler is
`None` or already registered: it errors on `None`, errors when a handler with
the same identity is present, and otherwise appends the handler to the list.
`handle_message` invokes all registered handlers on the message in
registration order (each returning normally). -/
theorem add_handler_registration (s : Sniffer μ) (h : SHandler μ) (m : μ) :
    (add_handler s none = .error "handler is none")
    ∧ ((∃ h2 ∈ s.handlers, h2.hid = h.hid) →
        add_handler s (some h) = .error "handler has already been added")
    ∧ ((∀ h2 ∈ s.handlers, h2.hid ≠ h.hid) →
        add_handler s (some h) = .ok { s with handlers := s.handlers ++ [h] })
    ∧ ((∀ h2 ∈ s.handlers, h2.run m = none) →
        handle_message s.handlers m = (s.handlers.map SHandler.hid, none)) := by
  refine ⟨rfl, ?_, ?_, fun hok => handle_message_all_ok s.handlers m hok⟩
  · intro ⟨h2, hmem, hid⟩
    have hc : (s.handlers.any fun h3 => h3.hid == h.hid) = true := by
      rw [List.any_eq_true]
      exact ⟨h2, hmem, by simp [hid]⟩
    simp [add_handler, hc]
  · intro hall
    have hc : (s.handlers.any fun h3 => h3.hid == h.hid) = false := by
      rw [Bool.eq_false_iff]
      intro hc
      rw [List.any_eq_true] at hc
      obtain ⟨h2, hmem, hid⟩ := hc
      exact hall h2 hmem (by simpa using hid)
    simp [add_handler, hc]

/-- Witness for `add_handler_registration`: a sniffer with one registered
handler (id 0); adding `None` fails, re-adding id 0 fails, adding a fresh
handler (id 1) succeeds, and dispatch invokes ids `[0]` in order. -/
theorem add_handler_registration_witness :
    (add_handler
        (⟨2181, fun _ _ _ t => .ok t, [⟨0, fun _ => none⟩], false, false⟩ : Sniffer Nat)
        none = .error "handler is none")
    ∧ (add_handler
        (⟨2181, fun _ _ _ t => .ok t, [⟨0, fun _ => none⟩], false, false⟩ : Sniffer Nat)
        (some ⟨0, fun _ => none⟩) = .error "handler has already been added")
    ∧ (add_handler
        (⟨2181, fun _ _ _ t => .ok t, [⟨0, fun _ => none⟩], false, false⟩ : Sniffer Nat)
        (some ⟨1, fun _ => none⟩)
        = .ok { (⟨2181, fun _ _ _ t => .ok t, [⟨0, fun _ => none⟩], false, false⟩ :
            Sniffer Nat) with
            handlers := (⟨2181, fun _ _ _ t => .ok t, [⟨0, fun _ => none⟩], false,
              false⟩ : Sniffer Nat).handlers ++ [⟨1, fun _ => none⟩] })
    ∧ (handle_message
        (⟨2181, fun _ _ _ t => .ok t, [⟨0, fun _ => none⟩], false, false⟩ :
          Sniffer Nat).handlers 3
        = ((⟨2181, fun _ _ _ t => .ok t, [⟨0, fun _ => none⟩], false, false⟩ :
            Sniffer Nat).handlers.map SHandler.hid, none)) :=
  ⟨(add_handler_registration
      (⟨2181, fun _ _ _ t => .ok t, [⟨0, fun _ => none⟩], false, false⟩ : Sniffer Nat)
      ⟨0, fun _ => none⟩ 3).1,
   (add_handler_registration
      (⟨2181, fun _ _ _ t => .ok t, [⟨0, fun _ => none⟩], false, false⟩ : Sniffer Nat)
      ⟨0, fun _ => none⟩ 3).2.1 ⟨⟨0, fun _ => none⟩, by simp, rfl⟩,
   (add_handler_registration
      (⟨2181, fun _ _ _ t => .ok t, [⟨0, fun _ => none⟩], false, false⟩ : Sniffer Nat)
      ⟨1, fun _ => none⟩ 3).2.2.1
     (by
       intro h2 hm2
       simp only [List.mem_singleton] at hm2
       rw [hm2]
       decide),
   (add_handler_registration
      (⟨2181, fun _ _ _ t => .ok t, [⟨0, fun _ => none⟩], false, false⟩ : Sniffer Nat)
      ⟨0, fun _ => none⟩ 3).2.2.2
     (by
       intro h2 hm2
       simp only [List.mem_singleton] at hm2
       rw [hm2])⟩

end ZkTraffic
